import Mathlib

/-!
Shallow embedding of `src/server.py` (a YFinance MCP tool adapter).

Modelling conventions:
* Python values that flow through the adapter are modelled by `PyVal`
  (None, str, int, float); Python floats are modelled as rationals.
* A Python dict is an association list `PyDict` in insertion order;
  `dict.get` is first-match lookup.
* The external yfinance client is an environment `Provider`:
  `history symbol period` and `info symbol` each either return data or
  raise an exception, modelled by `Except String`.
* Each tool body runs inside `Except String`; the `try/except` wrapper of
  the Python code is `pyCatch`, which converts every raised exception into
  the handler value, so the wrapped tool always returns `.ok`.
  `get_current_date` instead re-raises (`Except.error`) as in the source.
-/

/-- Python-level values handled by the adapter (floats as rationals). -/
inductive PyVal where
  | none
  | str (s : String)
  | int (n : Int)
  | float (q : Rat)
deriving DecidableEq, Repr

/-- A Python dict in insertion order. -/
abbrev PyDict := List (String × PyVal)

/-- Python `d.get(k)`: `None` when the key is absent. -/
def pyGet (d : PyDict) (k : String) : PyVal :=
  (d.lookup k).getD PyVal.none

/-- Python `d.get(k, dflt)`: the default only when the key is absent. -/
def pyGetD (d : PyDict) (k : String) (dflt : PyVal) : PyVal :=
  (d.lookup k).getD dflt

/-- Python truthiness of a `PyVal`. -/
def truthy : PyVal → Bool
  | PyVal.none => false
  | PyVal.str s => !s.isEmpty
  | PyVal.int n => n != 0
  | PyVal.float q => q != 0

/-- Python `round(·, 2)` modelled over rationals: round half to even at
two decimal places. -/
def roundHalfEven (q : Rat) : Int :=
  let f := ⌊q⌋
  let frac := q - (f : Rat)
  if frac < 1/2 then f
  else if frac > 1/2 then f + 1
  else if f % 2 = 0 then f else f + 1

/-- Rounding to two decimal places (Python `round(x, 2)`). -/
def round2 (q : Rat) : Rat :=
  (roundHalfEven (q * 100) : Rat) / 100

/-- Python `int(·)` on a float: truncation toward zero. -/
def pyTrunc (q : Rat) : Int :=
  if q < 0 then ⌈q⌉ else ⌊q⌋

/-- A calendar date from the provider index. -/
structure PyDate where
  year : Nat
  month : Nat
  day : Nat
deriving DecidableEq, Repr

/-- Left-pad a numeral with zeros to width `w`. -/
def padZ (w : Nat) (n : Nat) : String :=
  let s := toString n
  String.mk (List.replicate (w - s.length) '0') ++ s

/-- Rendering `strftime("%Y-%m-%d")` of a provider index date. -/
def fmtDate (d : PyDate) : String :=
  padZ 4 d.year ++ "-" ++ padZ 2 d.month ++ "-" ++ padZ 2 d.day

/-- One OHLCV row of the provider DataFrame, with its date index. -/
structure Bar where
  date : PyDate
  Open : Rat
  High : Rat
  Low : Rat
  Close : Rat
  Volume : Rat
deriving DecidableEq, Repr

instance : Inhabited Bar := ⟨⟨⟨0, 0, 0⟩, 0, 0, 0, 0, 0⟩⟩

/-- The external yfinance client: `Ticker(symbol).history(period)` and
`Ticker(symbol).info`, each able to raise. -/
structure Provider where
  history : String → String → Except String (List Bar)
  info : String → Except String PyDict

/-- A single-quote character, used in the Korean error messages. -/
def squote : String := "\x27"

/-- Semantics of `try: body except Exception as e: return handler(e)` —
the result is always a normal return. -/
def pyCatch (body : Except String α) (handler : String → α) : Except String α :=
  match body with
  | Except.ok v => Except.ok v
  | Except.error e => Except.ok (handler e)

/-- Message of `get_stock_price` / `get_stock_price_history` when the
series is empty. -/
def noDataMsg (symbol : String) : String :=
  "심볼 " ++ squote ++ symbol ++ squote ++ "에 대한 주식 데이터가 없습니다."

/-- Message of `get_stock_price` / `get_stock_price_history` when the
fetch raises. -/
def fetchErrMsg (e : String) : String :=
  "주식 데이터를 가져오는 중 오류가 발생했습니다: " ++ e

/-- Embedding of `get_stock_price(symbol)` from `src/server.py`. -/
def get_stock_price (p : Provider) (symbol : String) : Except String PyDict :=
  pyCatch
    (do
      let data ← p.history symbol "1d"
      if data.isEmpty then
        pure [("error", PyVal.str (noDataMsg symbol))]
      else
        let latest := data.getLastD default
        pure [("symbol", PyVal.str symbol),
              ("date", PyVal.str (fmtDate latest.date)),
              ("open", PyVal.float (round2 latest.Open)),
              ("high", PyVal.float (round2 latest.High)),
              ("low", PyVal.float (round2 latest.Low)),
              ("close", PyVal.float (round2 latest.Close)),
              ("volume", PyVal.int (pyTrunc latest.Volume))])
    (fun e => [("error", PyVal.str (fetchErrMsg e))])

/-- The dictionary appended for one row of the DataFrame iteration in
`get_stock_price_history`. -/
def historyRow (row : Bar) : PyDict :=
  [("date", PyVal.str (fmtDate row.date)),
   ("open", PyVal.float (round2 row.Open)),
   ("high", PyVal.float (round2 row.High)),
   ("low", PyVal.float (round2 row.Low)),
   ("close", PyVal.float (round2 row.Close)),
   ("volume", PyVal.int (pyTrunc row.Volume))]

/-- Embedding of `get_stock_price_history(symbol, period)` from
`src/server.py`. -/
def get_stock_price_history (p : Provider) (symbol : String) (period : String) :
    Except String (List PyDict) :=
  pyCatch
    (do
      let data ← p.history symbol period
      if data.isEmpty then
        pure [[("error", PyVal.str (noDataMsg symbol))]]
      else
        pure (data.map historyRow))
    (fun e => [[("error", PyVal.str (fetchErrMsg e))]])

/-- Message of `get_stock_info` when the info mapping is empty. -/
def infoNoDataMsg (symbol : String) : String :=
  "심볼 " ++ squote ++ symbol ++ squote ++ "에 대한 정보를 찾을 수 없습니다."

/-- Message of `get_stock_info` when the fetch raises. -/
def infoErrMsg (e : String) : String :=
  "주식 정보를 가져오는 중 오류가 발생했습니다: " ++ e

/-- The sentinel for missing upstream fields. -/
def na : PyVal := PyVal.str "N/A"

/-- Expression `info.get("longBusinessSummary", "N/A")[:500] + "..." if
info.get("longBusinessSummary") else "N/A"` — slicing a truthy
non-string value raises a TypeError. -/
def descriptionField (info : PyDict) : Except String PyVal :=
  if truthy (pyGet info "longBusinessSummary") then
    match pyGetD info "longBusinessSummary" na with
    | PyVal.str s => pure (PyVal.str (s.take 500 ++ "..."))
    | _ => Except.error "TypeError"
  else
    pure na

/-- The profile dictionary of `get_stock_info` for a non-empty info
mapping, given the already-computed description value. -/
def infoDict (symbol : String) (info : PyDict) (desc : PyVal) : PyDict :=
  [("symbol", PyVal.str symbol),
   ("name", pyGetD info "longName" na),
   ("sector", pyGetD info "sector" na),
   ("industry", pyGetD info "industry" na),
   ("marketCap", pyGetD info "marketCap" na),
   ("previousClose", pyGetD info "previousClose" na),
   ("open", pyGetD info "open" na),
   ("dayLow", pyGetD info "dayLow" na),
   ("dayHigh", pyGetD info "dayHigh" na),
   ("trailingPE", pyGetD info "trailingPE" na),
   ("forwardPE", pyGetD info "forwardPE" na),
   ("dividendYield",
     if pyGet info "dividendYield" = PyVal.none then na
     else pyGetD info "dividendYield" na),
   ("description", desc)]

/-- Embedding of `get_stock_info(symbol)` from `src/server.py`. -/
def get_stock_info (p : Provider) (symbol : String) : Except String PyDict :=
  pyCatch
    (do
      let info ← p.info symbol
      if info.isEmpty then
        pure [("error", PyVal.str (infoNoDataMsg symbol))]
      else do
        let desc ← descriptionField info
        pure (infoDict symbol info desc))
    (fun e => [("error", PyVal.str (infoErrMsg e))])

/-- Whitespace characters of Python `str.split()` / `str.strip()`
(the ASCII set). -/
def pyIsSpace (c : Char) : Bool :=
  c = ' ' || c = '\t' || c = '\n' || c = '\x0d' || c = '\x0b' || c = '\x0c'

/-- Worker of `pySplit`: accumulate the current token in reverse and
cut at every whitespace run. -/
def pySplitAux : List Char → List Char → List String
  | [], acc => if acc.isEmpty then [] else [String.mk acc.reverse]
  | c :: cs, acc =>
    if pyIsSpace c then
      if acc.isEmpty then pySplitAux cs []
      else String.mk acc.reverse :: pySplitAux cs []
    else pySplitAux cs (c :: acc)

/-- Python `query.split()`: split on runs of whitespace, producing no
empty tokens. -/
def pySplit (s : String) : List String :=
  pySplitAux s.toList []

/-- Python `s.strip()`. -/
def pyStrip (s : String) : String :=
  String.mk (((s.toList.dropWhile (fun c => pyIsSpace c)).reverse.dropWhile
    (fun c => pyIsSpace c)).reverse)

/-- Message of `search_stocks` when no hit was produced. -/
def noResultMsg (query : String) : String :=
  squote ++ query ++ squote ++ "에 대한 검색 결과가 없습니다."

/-- Message of `search_stocks` when the outer loop raises. -/
def searchErrMsg (e : String) : String :=
  "주식 검색 중 오류가 발생했습니다: " ++ e

/-- Body of the inner `try` of `search_stocks` for one stripped token:
fetch the info and build the hit when the info is truthy and has a
truthy `longName`. -/
def tokenHit (p : Provider) (symbol : String) : Except String (Option PyDict) := do
  let info ← p.info symbol
  if !info.isEmpty && truthy (pyGet info "longName") then
    pure (some [("symbol", PyVal.str symbol),
                ("name", pyGetD info "longName" (PyVal.str "")),
                ("exchange", pyGetD info "exchange" (PyVal.str "")),
                ("currency", pyGetD info "currency" (PyVal.str ""))])
  else
    pure none

/-- The `for symbol_raw in query.split()` loop of `search_stocks`:
strip each token, skip empty ones, and on a per-token exception
`continue` with the rest. -/
def searchLoop (p : Provider) : List String → List PyDict
  | [] => []
  | tok :: rest =>
    let symbol := pyStrip tok
    if symbol.isEmpty then searchLoop p rest
    else
      match tokenHit p symbol with
      | Except.ok (some d) => d :: searchLoop p rest
      | Except.ok Option.none => searchLoop p rest
      | Except.error _ => searchLoop p rest

/-- Embedding of `search_stocks(query)` from `src/server.py`. -/
def search_stocks (p : Provider) (query : String) : Except String (List PyDict) :=
  pyCatch
    (do
      let result := searchLoop p (pySplit query)
      pure (if result.isEmpty
        then [[("message", PyVal.str (noResultMsg query))]]
        else result))
    (fun e => [[("error", PyVal.str (searchErrMsg e))]])

/-- The current instant as resolved in a timezone: everything
`datetime.now(tz)` provides that the tool reads. -/
structure Instant where
  year : Nat
  month : Nat
  day : Nat
  hour : Nat
  minute : Nat
  second : Nat
  weekdayEn : String
  tzAbbrev : String
  timestamp : Int
deriving DecidableEq, Repr

/-- The fixed seven-entry weekday localization table `day_map_kr`. -/
def day_map_kr : List (String × String) :=
  [("Monday", "월요일"), ("Tuesday", "화요일"), ("Wednesday", "수요일"),
   ("Thursday", "목요일"), ("Friday", "금요일"), ("Saturday", "토요일"),
   ("Sunday", "일요일")]

/-- Rendering `strftime("%H:%M:%S")`. -/
def fmtTime (h m s : Nat) : String :=
  padZ 2 h ++ ":" ++ padZ 2 m ++ ":" ++ padZ 2 s

/-- Rendering `strftime("%Y-%m-%d")` on an instant. -/
def fmtYMD (now : Instant) : String :=
  padZ 4 now.year ++ "-" ++ padZ 2 now.month ++ "-" ++ padZ 2 now.day

/-- Rendering `strftime("%Y-%m-%d %H:%M:%S %Z")`. -/
def fmtFull (now : Instant) : String :=
  fmtYMD now ++ " " ++ fmtTime now.hour now.minute now.second ++ " " ++ now.tzAbbrev

/-- Message of the `ValueError` raised by `get_current_date`. -/
def dateErrMsg (e : String) : String :=
  "날짜 정보를 가져오는 중 오류가 발생했습니다: " ++ e

/-- The dictionary built by `get_current_date` from a resolved instant. -/
def dateDict (timezone : String) (now : Instant) : PyDict :=
  let day_en := now.weekdayEn
  let day_kr := (day_map_kr.lookup day_en).getD day_en
  [("full_datetime", PyVal.str (fmtFull now)),
   ("date_iso", PyVal.str (fmtYMD now)),
   ("time_iso", PyVal.str (fmtTime now.hour now.minute now.second)),
   ("date_ymd", PyVal.str (fmtYMD now)),
   ("day_of_week", PyVal.str day_en),
   ("day_of_week_kr", PyVal.str day_kr),
   ("timezone", PyVal.str timezone),
   ("unix_timestamp", PyVal.int now.timestamp),
   ("year", PyVal.int now.year),
   ("month", PyVal.int now.month),
   ("day", PyVal.int now.day),
   ("hour", PyVal.int now.hour),
   ("minute", PyVal.int now.minute),
   ("second", PyVal.int now.second)]

/-- Embedding of `get_current_date(timezone)` from `src/server.py`.
Here `resolve` models
`pytz.timezone` followed by `datetime.now(tz)`: it raises on an invalid
timezone identifier.  Unlike the other tools, the except-branch
re-raises (a `ValueError`). -/
def get_current_date (resolve : String → Except String Instant)
    (timezone : String) : Except String PyDict :=
  match (do
      let now ← resolve timezone
      pure (dateDict timezone now) : Except String PyDict) with
  | Except.ok v => Except.ok v
  | Except.error e => Except.error (dateErrMsg e)

/-! ### Concrete provider environments used by witnesses -/

/-- A sample OHLCV row. -/
def bar1 : Bar := ⟨⟨2024, 5, 7⟩, 101/10, 102/10, 100/10, 1015/100, 1234567⟩

/-- A second sample OHLCV row with fractional volume and a close that
needs rounding. -/
def bar2 : Bar := ⟨⟨2024, 5, 8⟩, 1015/100, 103/10, 1012/100, 10247/1000, 7654321/2⟩

/-- A provider with data for every symbol. -/
def provA : Provider :=
  { history := fun _ _ => Except.ok [bar1, bar2],
    info := fun _ => Except.ok [("longName", PyVal.str "Apple Inc."),
                                ("exchange", PyVal.str "NMS")] }

/-- A provider that returns empty data everywhere. -/
def provEmpty : Provider :=
  { history := fun _ _ => Except.ok [],
    info := fun _ => Except.ok [] }

/-- A provider that raises on every call. -/
def provErr : Provider :=
  { history := fun _ _ => Except.error "boom",
    info := fun _ => Except.error "boom" }

/-- Wrapper `pyCatch` never lets an exception escape. -/
theorem pyCatch_isOk (body : Except String α) (handler : String → α) :
    (pyCatch body handler).isOk = true := by
  cases body <;> rfl

/-- C1: `get_stock_price` never propagates an exception: it always
returns normally; an empty series yields a dictionary holding only an
`error` field whose message contains the symbol, and a provider-level
exception is converted to the same `error`-field dictionary shape
instead of being raised. -/
theorem price_never_raises (p : Provider) (symbol : String) :
    (get_stock_price p symbol).isOk = true
    ∧ (p.history symbol "1d" = Except.ok [] →
        get_stock_price p symbol =
          Except.ok [("error", PyVal.str (noDataMsg symbol))]
        ∧ ∃ a b, noDataMsg symbol = a ++ symbol ++ b)
    ∧ (∀ e, p.history symbol "1d" = Except.error e →
        get_stock_price p symbol =
          Except.ok [("error", PyVal.str (fetchErrMsg e))]) := by
  refine ⟨pyCatch_isOk _ _, ?_, ?_⟩
  · intro h
    refine ⟨?_, "심볼 " ++ squote, squote ++ "에 대한 주식 데이터가 없습니다.", ?_⟩
    · simp [get_stock_price, h, Except.bind, Bind.bind, pure, Except.pure, pyCatch]
    · simp [noDataMsg, String.append_assoc]
  · intro e h
    simp [get_stock_price, h, Except.bind, Bind.bind, pure, Except.pure, pyCatch]

/-- Witness for C1 at concrete providers: an empty series and a raising
provider. -/
theorem price_never_raises_witness :
    (get_stock_price provEmpty "AAPL" =
        Except.ok [("error", PyVal.str (noDataMsg "AAPL"))]
      ∧ ∃ a b, noDataMsg "AAPL" = a ++ "AAPL" ++ b)
    ∧ get_stock_price provErr "AAPL" =
        Except.ok [("error", PyVal.str (fetchErrMsg "boom"))] :=
  ⟨(price_never_raises provEmpty "AAPL").2.1 rfl,
   (price_never_raises provErr "AAPL").2.2 "boom" rfl⟩

/-- C2: only `get_current_date` signals failure by raising — a failed
timezone resolution becomes a raised `ValueError` carrying a
descriptive message that embeds the underlying error text — while the
four stock operations always return normally, whatever the provider
does. -/
theorem date_only_raiser (resolve : String → Except String Instant)
    (tz : String) (p : Provider) (s per q : String) :
    (∀ e, resolve tz = Except.error e →
      get_current_date resolve tz = Except.error (dateErrMsg e)
      ∧ ∃ a, dateErrMsg e = a ++ e)
    ∧ (get_stock_price p s).isOk = true
    ∧ (get_stock_price_history p s per).isOk = true
    ∧ (get_stock_info p s).isOk = true
    ∧ (search_stocks p q).isOk = true := by
  refine ⟨?_, pyCatch_isOk _ _, pyCatch_isOk _ _, pyCatch_isOk _ _, pyCatch_isOk _ _⟩
  intro e h
  exact ⟨by simp [get_current_date, h, Except.bind], "날짜 정보를 가져오는 중 오류가 발생했습니다: ", rfl⟩

/-- A timezone resolver that fails on every identifier, as `pytz`
does on an unknown name. -/
def badResolve : String → Except String Instant :=
  fun tz => Except.error ("UnknownTimeZoneError: " ++ tz)

/-- Witness for C2: a concrete invalid timezone raises with the
descriptive message; the four stock operations return normally. -/
theorem date_only_raiser_witness :
    (get_current_date badResolve "Not/AZone" =
        Except.error (dateErrMsg "UnknownTimeZoneError: Not/AZone")
      ∧ ∃ a, dateErrMsg "UnknownTimeZoneError: Not/AZone" =
          a ++ "UnknownTimeZoneError: Not/AZone")
    ∧ (get_stock_price provErr "AAPL").isOk = true
    ∧ (get_stock_price_history provErr "AAPL" "1mo").isOk = true
    ∧ (get_stock_info provErr "AAPL").isOk = true
    ∧ (search_stocks provErr "AAPL").isOk = true :=
  ⟨(date_only_raiser badResolve "Not/AZone" provErr "AAPL" "1mo" "AAPL").1
      "UnknownTimeZoneError: Not/AZone" rfl,
   (date_only_raiser badResolve "Not/AZone" provErr "AAPL" "1mo" "AAPL").2.1,
   (date_only_raiser badResolve "Not/AZone" provErr "AAPL" "1mo" "AAPL").2.2.1,
   (date_only_raiser badResolve "Not/AZone" provErr "AAPL" "1mo" "AAPL").2.2.2.1,
   (date_only_raiser badResolve "Not/AZone" provErr "AAPL" "1mo" "AAPL").2.2.2.2⟩

/-- C5: on an empty series or a provider exception,
`get_stock_price_history` returns a one-element list wrapping the
`error` dictionary, whereas `get_stock_price` returns the same kind of
error dictionary unwrapped. -/
theorem history_error_wrapped (p : Provider) (symbol period : String) :
    (p.history symbol period = Except.ok [] →
      get_stock_price_history p symbol period =
        Except.ok [[("error", PyVal.str (noDataMsg symbol))]])
    ∧ (∀ e, p.history symbol period = Except.error e →
      get_stock_price_history p symbol period =
        Except.ok [[("error", PyVal.str (fetchErrMsg e))]])
    ∧ (p.history symbol "1d" = Except.ok [] →
      get_stock_price p symbol =
        Except.ok [("error", PyVal.str (noDataMsg symbol))]) := by
  refine ⟨?_, ?_, ?_⟩
  · intro h
    simp [get_stock_price_history, h, Except.bind, Bind.bind, pure, Except.pure, pyCatch]
  · intro e h
    simp [get_stock_price_history, h, Except.bind, Bind.bind, pure, Except.pure, pyCatch]
  · intro h
    simp [get_stock_price, h, Except.bind, Bind.bind, pure, Except.pure, pyCatch]

/-- Witness for C5 at the empty and the raising provider. -/
theorem history_error_wrapped_witness :
    get_stock_price_history provEmpty "AAPL" "1mo" =
        Except.ok [[("error", PyVal.str (noDataMsg "AAPL"))]]
    ∧ get_stock_price_history provErr "AAPL" "1mo" =
        Except.ok [[("error", PyVal.str (fetchErrMsg "boom"))]]
    ∧ get_stock_price provEmpty "AAPL" =
        Except.ok [("error", PyVal.str (noDataMsg "AAPL"))] :=
  ⟨(history_error_wrapped provEmpty "AAPL" "1mo").1 rfl,
   (history_error_wrapped provErr "AAPL" "1mo").2.1 "boom" rfl,
   (history_error_wrapped provEmpty "AAPL" "1mo").2.2 rfl⟩

/-- C7: on a non-empty series, `get_stock_price_history` returns one
dictionary per provider row in the provider's order, each holding
exactly the fields date (ISO), open/high/low/close (rounded to two
decimals) and volume (integer), and no `symbol` field. -/
theorem history_rows (p : Provider) (symbol period : String) (rows : List Bar)
    (hrows : p.history symbol period = Except.ok rows) (hne : rows ≠ []) :
    get_stock_price_history p symbol period = Except.ok (rows.map historyRow)
    ∧ ∀ row : Bar,
      (historyRow row).map Prod.fst =
        ["date", "open", "high", "low", "close", "volume"]
      ∧ (historyRow row).lookup "symbol" = Option.none
      ∧ (historyRow row).lookup "date" = some (PyVal.str (fmtDate row.date))
      ∧ (historyRow row).lookup "open" = some (PyVal.float (round2 row.Open))
      ∧ (historyRow row).lookup "high" = some (PyVal.float (round2 row.High))
      ∧ (historyRow row).lookup "low" = some (PyVal.float (round2 row.Low))
      ∧ (historyRow row).lookup "close" = some (PyVal.float (round2 row.Close))
      ∧ (historyRow row).lookup "volume" = some (PyVal.int (pyTrunc row.Volume)) := by
  constructor
  · simp [get_stock_price_history, hrows, Except.bind, Bind.bind, pure,
      Except.pure, pyCatch, hne]
  · intro row
    refine ⟨rfl, ?_, ?_, ?_, ?_, ?_, ?_, ?_⟩ <;> simp [historyRow, List.lookup]

/-- Witness for C7: a concrete two-row series maps to two row
dictionaries in order. -/
theorem history_rows_witness :
    get_stock_price_history provA "AAPL" "1mo" =
      Except.ok [historyRow bar1, historyRow bar2]
    ∧ (historyRow bar1).map Prod.fst =
        ["date", "open", "high", "low", "close", "volume"]
    ∧ (historyRow bar1).lookup "symbol" = Option.none :=
  ⟨(history_rows provA "AAPL" "1mo" [bar1, bar2] rfl (by simp)).1,
   ((history_rows provA "AAPL" "1mo" [bar1, bar2] rfl (by simp)).2 bar1).1,
   ((history_rows provA "AAPL" "1mo" [bar1, bar2] rfl (by simp)).2 bar1).2.1⟩

/-- C8: on a non-empty one-day series, `get_stock_price` returns the
last row's OHLC rounded to two decimals (each value an integer number
of hundredths), the volume truncated to an integer, the input symbol
and the ISO date of the latest bar. -/
theorem price_latest (p : Provider) (symbol : String) (init : List Bar) (last : Bar)
    (h : p.history symbol "1d" = Except.ok (init ++ [last])) :
    get_stock_price p symbol = Except.ok
      [("symbol", PyVal.str symbol),
       ("date", PyVal.str (fmtDate last.date)),
       ("open", PyVal.float (round2 last.Open)),
       ("high", PyVal.float (round2 last.High)),
       ("low", PyVal.float (round2 last.Low)),
       ("close", PyVal.float (round2 last.Close)),
       ("volume", PyVal.int (pyTrunc last.Volume))]
    ∧ (∃ n : Int, round2 last.Open = (n : Rat) / 100)
    ∧ (∃ n : Int, round2 last.High = (n : Rat) / 100)
    ∧ (∃ n : Int, round2 last.Low = (n : Rat) / 100)
    ∧ (∃ n : Int, round2 last.Close = (n : Rat) / 100) := by
  refine ⟨?_, ⟨_, rfl⟩, ⟨_, rfl⟩, ⟨_, rfl⟩, ⟨_, rfl⟩⟩
  simp [get_stock_price, h, Except.bind, Bind.bind, pure, Except.pure, pyCatch,
    List.getLastD_eq_getLast?]

/-- Witness for C8 at the concrete two-row provider: the second row is
the reported one. -/
theorem price_latest_witness :
    get_stock_price provA "AAPL" = Except.ok
      [("symbol", PyVal.str "AAPL"),
       ("date", PyVal.str "2024-05-08"),
       ("open", PyVal.float (round2 bar2.Open)),
       ("high", PyVal.float (round2 bar2.High)),
       ("low", PyVal.float (round2 bar2.Low)),
       ("close", PyVal.float (round2 bar2.Close)),
       ("volume", PyVal.int 3827160)]
    ∧ round2 bar2.Close = (1025 : Rat) / 100 := by
  constructor
  · have h := (price_latest provA "AAPL" [bar1] bar2 rfl).1
    have hd : fmtDate bar2.date = "2024-05-08" := rfl
    have hv : pyTrunc bar2.Volume = 3827160 := by
      norm_num [pyTrunc, bar2]
    rw [hd, hv] at h
    exact h
  · norm_num [round2, roundHalfEven, bar2]

/-- When the fetch succeeds with a non-empty mapping and the description
computation does not raise, `get_stock_info` returns the profile. -/
theorem get_stock_info_ok (p : Provider) (symbol : String) (info : PyDict)
    (desc : PyVal) (hinfo : p.info symbol = Except.ok info) (hne : info ≠ [])
    (hdesc : descriptionField info = Except.ok desc) :
    get_stock_info p symbol = Except.ok (infoDict symbol info desc) := by
  simp [get_stock_info, hinfo, hdesc, hne, pyCatch, Except.bind, Bind.bind,
    pure, Except.pure]

/-- C3: with a non-empty string business summary, the `description`
field is the first 500 characters of the summary with `"..."` appended
— also when the summary is shorter than 500 characters — and with no
summary entry at all it is the `"N/A"` sentinel. -/
theorem info_description_truncation (p : Provider) (symbol : String)
    (info : PyDict) (hinfo : p.info symbol = Except.ok info) (hne : info ≠ []) :
    (∀ s : String, pyGet info "longBusinessSummary" = PyVal.str s → s ≠ "" →
      get_stock_info p symbol =
        Except.ok (infoDict symbol info (PyVal.str (s.take 500 ++ "...")))
      ∧ (infoDict symbol info (PyVal.str (s.take 500 ++ "..."))).lookup
          "description" = some (PyVal.str (s.take 500 ++ "..."))
      ∧ (s.length ≤ 500 → s.take 500 ++ "..." = s ++ "..."))
    ∧ (info.lookup "longBusinessSummary" = Option.none →
      get_stock_info p symbol = Except.ok (infoDict symbol info na)
      ∧ (infoDict symbol info na).lookup "description" = some na) := by
  constructor
  · intro s hs hsne
    have hlk : info.lookup "longBusinessSummary" = some (PyVal.str s) := by
      cases hc : info.lookup "longBusinessSummary" with
      | none => simp [pyGet, hc] at hs
      | some v => simpa [pyGet, hc] using hs
    have hemp : s.isEmpty = false := by
      rw [Bool.eq_false_iff]
      simpa [String.isEmpty_iff] using hsne
    have hdesc : descriptionField info =
        Except.ok (PyVal.str (s.take 500 ++ "...")) := by
      simp [descriptionField, pyGet, pyGetD, hlk, truthy, hemp,
        pure, Except.pure]
    refine ⟨get_stock_info_ok p symbol info _ hinfo hne hdesc, ?_, ?_⟩
    · simp [infoDict, List.lookup]
    · intro hlen
      rw [String.take_eq, List.take_of_length_le hlen]
  · intro hnone
    have hdesc : descriptionField info = Except.ok na := by
      simp [descriptionField, pyGet, hnone, truthy, pure, Except.pure]
    exact ⟨get_stock_info_ok p symbol info na hinfo hne hdesc,
      by simp [infoDict, List.lookup]⟩

/-- An info mapping whose business summary is far shorter than 500
characters. -/
def shortInfo : PyDict := [("longBusinessSummary", PyVal.str "Short summary.")]

/-- A provider serving `shortInfo` for every symbol. -/
def provShort : Provider :=
  { history := fun _ _ => Except.ok [],
    info := fun _ => Except.ok shortInfo }

/-- Witness for C3: a 14-character summary still gets the ellipsis
marker appended. -/
theorem info_description_truncation_witness :
    get_stock_info provShort "AAPL" =
      Except.ok (infoDict "AAPL" shortInfo
        (PyVal.str ("Short summary.".take 500 ++ "...")))
    ∧ ("Short summary.".take 500 ++ "..." = "Short summary." ++ "...")
    ∧ (infoDict "AAPL" shortInfo
        (PyVal.str ("Short summary.".take 500 ++ "..."))).lookup "description"
        = some (PyVal.str ("Short summary.".take 500 ++ "...")) := by
  have h := (info_description_truncation provShort "AAPL" shortInfo rfl
    (by simp [shortInfo])).1 "Short summary." rfl (by decide)
  exact ⟨h.1, h.2.2 (by decide), h.2.1⟩

/-- A provider whose info mapping stores an explicit Python `None`
under `longName`. -/
def nullNameProv : Provider :=
  { history := fun _ _ => Except.ok [],
    info := fun _ => Except.ok [("longName", PyVal.none)] }

/-- Counterexample to C9 as stated: for a non-empty metadata mapping
that stores `None` under `longName`, the returned profile's `name`
field is `None` — a null profile field, although the claim says no
field of the profile is ever null. -/
theorem info_sentinel_cex :
    nullNameProv.info "XXXX" = Except.ok [("longName", PyVal.none)]
    ∧ ([("longName", PyVal.none)] : PyDict) ≠ []
    ∧ get_stock_info nullNameProv "XXXX" =
        Except.ok (infoDict "XXXX" [("longName", PyVal.none)] na)
    ∧ (infoDict "XXXX" [("longName", PyVal.none)] na).lookup "name" =
        some PyVal.none := by
  refine ⟨rfl, by simp, ?_, by simp [infoDict, pyGetD, List.lookup]⟩
  exact get_stock_info_ok nullNameProv "XXXX" [("longName", PyVal.none)] na rfl
    (by simp)
    (by simp [descriptionField, pyGet, truthy, List.lookup, pure, Except.pure])

/-- The ten profile fields read with a plain `info.get(key, "N/A")`,
paired with their upstream keys. -/
def simpleFields : List (String × String) :=
  [("name", "longName"), ("sector", "sector"), ("industry", "industry"),
   ("marketCap", "marketCap"), ("previousClose", "previousClose"),
   ("open", "open"), ("dayLow", "dayLow"), ("dayHigh", "dayHigh"),
   ("trailingPE", "trailingPE"), ("forwardPE", "forwardPE")]

/-- A `get(k, "N/A")` field can only be the Python `None` if the key is
stored with an explicit `None`. -/
theorem pyGetD_na_eq_none (info : PyDict) (k : String)
    (h : pyGetD info k na = PyVal.none) :
    info.lookup k = some PyVal.none := by
  cases hc : info.lookup k with
  | none => rw [pyGetD, hc] at h; simp [na] at h
  | some w => rw [pyGetD, hc] at h; simp at h; rw [h]

/-- C9 (amended): on a non-empty mapping whose business-summary entry
does not make the slice raise, the profile omits no field; every absent
upstream field — and a dividend yield that is absent or `None` — is the
`"N/A"` sentinel; and a profile field can be null only when its
upstream field is stored as an explicit `None` (never for dividend
yield or description). -/
theorem info_sentinel_amended (p : Provider) (symbol : String) (info : PyDict)
    (desc : PyVal) (hinfo : p.info symbol = Except.ok info) (hne : info ≠ [])
    (hdesc : descriptionField info = Except.ok desc) :
    get_stock_info p symbol = Except.ok (infoDict symbol info desc)
    ∧ (infoDict symbol info desc).map Prod.fst =
        ["symbol", "name", "sector", "industry", "marketCap",
         "previousClose", "open", "dayLow", "dayHigh", "trailingPE",
         "forwardPE", "dividendYield", "description"]
    ∧ (∀ pk uk, (pk, uk) ∈ simpleFields → info.lookup uk = Option.none →
        (infoDict symbol info desc).lookup pk = some na)
    ∧ ((info.lookup "dividendYield" = Option.none
        ∨ info.lookup "dividendYield" = some PyVal.none) →
        (infoDict symbol info desc).lookup "dividendYield" = some na)
    ∧ (info.lookup "longBusinessSummary" = Option.none →
        (infoDict symbol info desc).lookup "description" = some na)
    ∧ (∀ pk v, (pk, v) ∈ infoDict symbol info desc → v = PyVal.none →
        ∃ uk, (pk, uk) ∈ simpleFields ∧ info.lookup uk = some PyVal.none) := by
  have hdesc_ne : desc ≠ PyVal.none := by
    intro hcontra
    subst hcontra
    rw [descriptionField] at hdesc
    split at hdesc
    · rcases hget : pyGetD info "longBusinessSummary" na with _ | s | n | q <;>
        rw [hget] at hdesc <;> simp [pure, Except.pure] at hdesc
    · simp [pure, Except.pure, na] at hdesc
  refine ⟨get_stock_info_ok p symbol info desc hinfo hne hdesc, ?_, ?_, ?_, ?_, ?_⟩
  · simp [infoDict]
  · intro pk uk hm hlk
    fin_cases hm <;> simp [infoDict, List.lookup, pyGetD, hlk]
  · intro hdy
    rcases hdy with hdy | hdy <;>
      simp [infoDict, List.lookup, pyGet, pyGetD, hdy]
  · intro hnone
    have : descriptionField info = Except.ok na := by
      simp [descriptionField, pyGet, hnone, truthy, pure, Except.pure]
    rw [this] at hdesc
    cases hdesc
    simp [infoDict, List.lookup]
  · intro pk v hmem hv
    subst hv
    simp only [infoDict, List.mem_cons, List.mem_singleton, Prod.mk.injEq,
      List.not_mem_nil, or_false] at hmem
    rcases hmem with ⟨_, h⟩ | ⟨rfl, h⟩ | ⟨rfl, h⟩ | ⟨rfl, h⟩ | ⟨rfl, h⟩ |
      ⟨rfl, h⟩ | ⟨rfl, h⟩ | ⟨rfl, h⟩ | ⟨rfl, h⟩ | ⟨rfl, h⟩ | ⟨rfl, h⟩ |
      ⟨rfl, h⟩ | ⟨rfl, h⟩
    · exact absurd h.symm (by simp)
    · exact ⟨"longName", by simp [simpleFields], pyGetD_na_eq_none _ _ h.symm⟩
    · exact ⟨"sector", by simp [simpleFields], pyGetD_na_eq_none _ _ h.symm⟩
    · exact ⟨"industry", by simp [simpleFields], pyGetD_na_eq_none _ _ h.symm⟩
    · exact ⟨"marketCap", by simp [simpleFields], pyGetD_na_eq_none _ _ h.symm⟩
    · exact ⟨"previousClose", by simp [simpleFields], pyGetD_na_eq_none _ _ h.symm⟩
    · exact ⟨"open", by simp [simpleFields], pyGetD_na_eq_none _ _ h.symm⟩
    · exact ⟨"dayLow", by simp [simpleFields], pyGetD_na_eq_none _ _ h.symm⟩
    · exact ⟨"dayHigh", by simp [simpleFields], pyGetD_na_eq_none _ _ h.symm⟩
    · exact ⟨"trailingPE", by simp [simpleFields], pyGetD_na_eq_none _ _ h.symm⟩
    · exact ⟨"forwardPE", by simp [simpleFields], pyGetD_na_eq_none _ _ h.symm⟩
    · rw [eq_comm] at h
      split at h
      · exact absurd h (by simp [na])
      · next hcond =>
        refine absurd ?_ hcond
        rw [pyGet, pyGetD_na_eq_none _ _ h]
        rfl
    · exact absurd h.symm hdesc_ne

/-- Witness for the amended C9 at `nullNameProv`: the profile is
complete and its `sector` field (absent upstream) is the sentinel. -/
theorem info_sentinel_amended_witness :
    get_stock_info nullNameProv "YYYY" =
      Except.ok (infoDict "YYYY" [("longName", PyVal.none)] na)
    ∧ (infoDict "YYYY" [("longName", PyVal.none)] na).lookup "sector" =
        some na
    ∧ (infoDict "YYYY" [("longName", PyVal.none)] na).map Prod.fst =
        ["symbol", "name", "sector", "industry", "marketCap",
         "previousClose", "open", "dayLow", "dayHigh", "trailingPE",
         "forwardPE", "dividendYield", "description"] := by
  have h := info_sentinel_amended nullNameProv "YYYY" [("longName", PyVal.none)]
    na rfl (by simp)
    (by simp [descriptionField, pyGet, truthy, List.lookup, pure, Except.pure])
  exact ⟨h.1, h.2.2.1 "sector" "sector" (by simp [simpleFields]) rfl, h.2.1⟩

/-- The contribution of one raw token to the search loop: nothing for a
blank stripped token, nothing when the per-token lookup raises,
otherwise the optional hit. -/
def tokenOutcome (p : Provider) (tok : String) : Option PyDict :=
  let symbol := pyStrip tok
  if symbol.isEmpty then Option.none
  else
    match tokenHit p symbol with
    | Except.ok r => r
    | Except.error _ => Option.none

/-- The search loop is the independent accumulation of the per-token
outcomes: no token's outcome influences another's. -/
theorem searchLoop_eq_filterMap (p : Provider) (toks : List String) :
    searchLoop p toks = toks.filterMap (tokenOutcome p) := by
  induction toks with
  | nil => rfl
  | cons t rest ih =>
    by_cases h : (pyStrip t).isEmpty
    · simp [searchLoop, tokenOutcome, h, ih]
    · cases htok : tokenHit p (pyStrip t) with
      | ok r =>
        cases r <;> simp [searchLoop, tokenOutcome, h, htok, ih]
      | error e =>
        simp [searchLoop, tokenOutcome, h, htok, ih]

/-- A produced hit dictionary has exactly the four hit keys, so in
particular no `error` key. -/
theorem tokenOutcome_no_error (p : Provider) (tok : String) (d : PyDict)
    (h : tokenOutcome p tok = some d) :
    d.map Prod.fst = ["symbol", "name", "exchange", "currency"]
    ∧ d.lookup "error" = Option.none := by
  rw [tokenOutcome] at h
  split at h
  · cases h
  · split at h
    next r hr =>
      cases hi : p.info (pyStrip tok) with
      | error e => rw [tokenHit, hi] at hr; simp [Except.bind, Bind.bind] at hr
      | ok info =>
        rw [tokenHit, hi] at hr
        by_cases hc : (!info.isEmpty && truthy (pyGet info "longName")) = true
        · simp [Except.bind, Bind.bind, pure, Except.pure, hc] at hr
          cases h
          injection hr with hr2
          rw [← hr2]
          exact ⟨rfl, by simp [List.lookup]⟩
        · simp [Except.bind, Bind.bind, pure, Except.pure, hc] at hr
          rw [← hr] at h
          cases h
    next e hr => cases h

/-- C4: `search_stocks` splits the query on whitespace and accumulates
per-token outcomes independently: a blank token is skipped, a token
whose lookup raises contributes nothing but does not abort the batch,
and the hits of the remaining tokens are still returned. -/
theorem search_token_isolation (p : Provider) (query : String) :
    search_stocks p query = Except.ok
      (if ((pySplit query).filterMap (tokenOutcome p)).isEmpty
       then [[("message", PyVal.str (noResultMsg query))]]
       else (pySplit query).filterMap (tokenOutcome p))
    ∧ (∀ tok, pyStrip tok = "" → tokenOutcome p tok = Option.none)
    ∧ (∀ tok e, p.info (pyStrip tok) = Except.error e →
        tokenOutcome p tok = Option.none) := by
  refine ⟨?_, ?_, ?_⟩
  · simp [search_stocks, pyCatch, Except.bind, Bind.bind, pure, Except.pure,
      searchLoop_eq_filterMap]
  · intro tok h
    simp [tokenOutcome, h]
    intro hc
    exact absurd hc (by decide)
  · intro tok e h
    by_cases hs : (pyStrip tok).isEmpty
    · simp [tokenOutcome, hs]
    · have htok : tokenHit p (pyStrip tok) = Except.error e := by
        simp [tokenHit, h, Except.bind, Bind.bind]
      simp [tokenOutcome, hs, htok]

/-- A provider for which exactly the symbol `NOSUCHSYMBOL` raises. -/
def provMixed : Provider :=
  { history := fun _ _ => Except.ok [],
    info := fun s =>
      if s = "NOSUCHSYMBOL" then Except.error "HTTPError"
      else Except.ok [("longName", PyVal.str (s ++ " Inc.")),
                      ("exchange", PyVal.str "NMS"),
                      ("currency", PyVal.str "USD")] }

/-- Witness for C4: the bad middle token is skipped and the hits of the
two good tokens are returned. -/
theorem search_token_isolation_witness :
    tokenOutcome provMixed "NOSUCHSYMBOL" = Option.none
    ∧ search_stocks provMixed "AAPL NOSUCHSYMBOL MSFT" = Except.ok
        [[("symbol", PyVal.str "AAPL"), ("name", PyVal.str "AAPL Inc."),
          ("exchange", PyVal.str "NMS"), ("currency", PyVal.str "USD")],
         [("symbol", PyVal.str "MSFT"), ("name", PyVal.str "MSFT Inc."),
          ("exchange", PyVal.str "NMS"), ("currency", PyVal.str "USD")]] := by
  constructor
  · exact (search_token_isolation provMixed "AAPL NOSUCHSYMBOL MSFT").2.2
      "NOSUCHSYMBOL" "HTTPError" rfl
  · have h := (search_token_isolation provMixed "AAPL NOSUCHSYMBOL MSFT").1
    exact h.trans (by rfl)

/-- C6: whenever no hit is produced — a whitespace-only query yields no
tokens at all — `search_stocks` returns normally with a one-element
list holding a `message`-field dictionary whose text contains the
query; every dictionary the operation can return normally lacks an
`error` field. -/
theorem search_no_results (p : Provider) (query : String)
    (h : (pySplit query).filterMap (tokenOutcome p) = []) :
    search_stocks p query =
      Except.ok [[("message", PyVal.str (noResultMsg query))]]
    ∧ (∃ a b, noResultMsg query = a ++ query ++ b)
    ∧ ([("message", PyVal.str (noResultMsg query))] : PyDict).lookup "error" =
        Option.none
    ∧ (∀ q l, search_stocks p q = Except.ok l → ∀ d ∈ l,
        d.lookup "error" = Option.none) := by
  refine ⟨?_, ?_, by simp [List.lookup], ?_⟩
  · simp [search_stocks, pyCatch, Except.bind, Bind.bind, pure, Except.pure,
      searchLoop_eq_filterMap, h]
  · refine ⟨squote, squote ++ "에 대한 검색 결과가 없습니다.", ?_⟩
    rw [noResultMsg, String.append_assoc]
  · intro q l hl d hd
    have hl2 := (search_token_isolation p q).1
    rw [hl] at hl2
    simp only [Except.ok.injEq] at hl2
    rw [hl2] at hd
    split at hd
    · simp at hd
      rw [hd]
      simp [List.lookup]
    · obtain ⟨t, _, ht⟩ := List.mem_filterMap.mp hd
      exact (tokenOutcome_no_error p t d ht).2

/-- Witness for C6: the whitespace-only query yields no tokens and the
single-element message object. -/
theorem search_no_results_witness :
    search_stocks provA "   " =
      Except.ok [[("message", PyVal.str (noResultMsg "   "))]]
    ∧ (∃ a b, noResultMsg "   " = a ++ "   " ++ b)
    ∧ pySplit "   " = [] :=
  ⟨(search_no_results provA "   " rfl).1,
   (search_no_results provA "   " rfl).2.1,
   rfl⟩

/-- C10: whenever `get_current_date` returns normally, `date_iso` and
`date_ymd` are the same string, the `%Y-%m-%d` rendering of the
decomposed `year`, `month` and `day` fields of the resolved instant. -/
theorem date_fields_consistent (resolve : String → Except String Instant)
    (tz : String) (d : PyDict)
    (h : get_current_date resolve tz = Except.ok d) :
    d.lookup "date_iso" = d.lookup "date_ymd"
    ∧ ∃ y m dd : Nat,
        d.lookup "year" = some (PyVal.int y)
        ∧ d.lookup "month" = some (PyVal.int m)
        ∧ d.lookup "day" = some (PyVal.int dd)
        ∧ d.lookup "date_iso" =
            some (PyVal.str (padZ 4 y ++ "-" ++ padZ 2 m ++ "-" ++ padZ 2 dd)) := by
  cases hres : resolve tz with
  | error e =>
    rw [get_current_date] at h
    simp [hres, Except.bind, Bind.bind, pure, Except.pure] at h
  | ok now =>
    have hd : d = dateDict tz now := by
      rw [get_current_date] at h
      simp [hres, Except.bind, Bind.bind, pure, Except.pure] at h
      exact h.symm
    subst hd
    refine ⟨by simp [dateDict, List.lookup],
      now.year, now.month, now.day, ?_, ?_, ?_, ?_⟩ <;>
      simp [dateDict, List.lookup, fmtYMD]

/-- A sample resolved instant, as for Asia/Seoul. -/
def inst1 : Instant :=
  ⟨2024, 5, 7, 13, 45, 30, "Tuesday", "KST", 1715057130⟩

/-- A resolver that always yields `inst1`. -/
def goodResolve : String → Except String Instant :=
  fun _ => Except.ok inst1

/-- Witness for C10 at the concrete resolver: both date fields render
as `2024-05-07`. -/
theorem date_fields_consistent_witness :
    (dateDict "Asia/Seoul" inst1).lookup "date_iso" =
      (dateDict "Asia/Seoul" inst1).lookup "date_ymd"
    ∧ (∃ y m dd : Nat,
        (dateDict "Asia/Seoul" inst1).lookup "year" = some (PyVal.int y)
        ∧ (dateDict "Asia/Seoul" inst1).lookup "month" = some (PyVal.int m)
        ∧ (dateDict "Asia/Seoul" inst1).lookup "day" = some (PyVal.int dd)
        ∧ (dateDict "Asia/Seoul" inst1).lookup "date_iso" =
            some (PyVal.str (padZ 4 y ++ "-" ++ padZ 2 m ++ "-" ++ padZ 2 dd)))
    ∧ (dateDict "Asia/Seoul" inst1).lookup "date_iso" =
        some (PyVal.str "2024-05-07") :=
  ⟨(date_fields_consistent goodResolve "Asia/Seoul"
      (dateDict "Asia/Seoul" inst1) rfl).1,
   (date_fields_consistent goodResolve "Asia/Seoul"
      (dateDict "Asia/Seoul" inst1) rfl).2,
   by rfl⟩
